import Mathlib

/-!
Shallow embedding of the `order-service` repository (Go) for checking its
natural-language specification.

Modelling conventions:
* Go `float64` monetary values are modelled as exact rationals (`ℚ`); the
  service's arithmetic (`price * float64(quantity)`, running sum, `+ 5.00`)
  is translated term by term.
* Go `error` values are modelled by the inductive `Err`; the sentinel values
  `domain.ErrNotFound`, `logicv1.ErrOrderNotFound`, `logicv1.ErrInvalidOrder`
  are distinguished constructors, every other error carries its message.
* Database ids are `Nat` (the repository converts the generated integer id
  with `strconv.Itoa`; the SQL layer casts the string back — we elide the
  round trip through strings).
* The Postgres backend (pgx pool and transaction) is modelled by an
  environment `TxEnv` giving the outcome of each statement, plus an explicit
  committed database state `DB`; a transaction buffers its writes and they
  become visible only on commit, matching SQL transaction semantics.
-/

namespace OrderService

/-- Go struct `domain.OrderItem` (internal/core/domain, part_002). -/
structure OrderItem where
  productID : String
  productName : String
  quantity : Int
  price : ℚ
  subtotal : ℚ
deriving DecidableEq, Repr

/-- Go struct `domain.Order` (internal/core/domain, part_002). -/
structure Order where
  id : Nat
  userID : String
  status : String
  items : List OrderItem
  subtotal : ℚ
  shipping : ℚ
  total : ℚ
  createdAt : Int
deriving DecidableEq, Repr

/-- Go struct `domain.CreateOrderRequest` (internal/core/domain, part_002). -/
structure CreateOrderRequest where
  userID : String
  items : List OrderItem
deriving DecidableEq, Repr

/-- Go `error` values relevant to the service:
`domain.ErrNotFound`, `logicv1.ErrOrderNotFound`,
`logicv1.ErrInvalidOrder`, and any other error with its message. -/
inductive Err where
  | notFound
  | orderNotFound
  | invalidOrder
  | other (msg : String)
deriving DecidableEq, Repr

instance {ε α : Type _} [DecidableEq ε] [DecidableEq α] :
    DecidableEq (Except ε α) := fun a b =>
  match a, b with
  | .ok x, .ok y => decidable_of_iff (x = y) (by simp)
  | .error x, .error y => decidable_of_iff (x = y) (by simp)
  | .ok _, .error _ => isFalse (fun h => Except.noConfusion h)
  | .error _, .ok _ => isFalse (fun h => Except.noConfusion h)

/-- Row of the `orders` table. -/
structure OrderRow where
  id : Nat
  userID : String
  status : String
  subtotal : ℚ
  shipping : ℚ
  total : ℚ
  createdAt : Int
deriving DecidableEq, Repr

/-- Row of the `order_items` table. -/
structure ItemRow where
  orderID : Nat
  productID : String
  productName : String
  quantity : Int
  price : ℚ
  subtotal : ℚ
deriving DecidableEq, Repr

/-- Committed database state. -/
structure DB where
  orders : List OrderRow
  items : List ItemRow
deriving DecidableEq, Repr

/-- Item enrichment step of `OrderService.CreateOrder`
(service.go lines 85-103): compute `Subtotal = Price * float64(Quantity)`
and fall back to `"Product <product_id>"` when the name is empty. -/
def enrichItem (item : OrderItem) : OrderItem :=
  { productID := item.productID
    productName :=
      if item.productName = "" then "Product " ++ item.productID
      else item.productName
    quantity := item.quantity
    price := item.price
    subtotal := item.price * (item.quantity : ℚ) }

/-- Running subtotal accumulated by the same loop
(`subtotal += itemSubtotal`, service.go lines 86-89). -/
def computeSubtotal (items : List OrderItem) : ℚ :=
  items.foldl (fun acc item => acc + item.price * (item.quantity : ℚ)) 0

/-- Outcome of each database statement the creation flow issues: the
behaviour of `TransactionManager.Begin`, the `INSERT INTO orders ...
RETURNING id` row insert, each `INSERT INTO order_items` exec, and
`Transaction.Commit`.  `now` is the clock value the repository passes as
`created_at` (`time.Now()`). -/
structure TxEnv where
  beginOk : Except String Unit
  orderInsertOk : Except String Nat
  itemInsertOk : OrderItem → Except String Unit
  commitOk : Except String Unit
  now : Int

/-- First error of the item-insert loop of
`PostgresOrderRepository.CreateWithTx` (part_000 lines 294-304): the Go
loop returns on the first failing `Exec`. -/
def firstItemErr (f : OrderItem → Except String Unit) : List OrderItem → Option String
  | [] => none
  | item :: rest =>
    match f item with
    | .error m => some m
    | .ok _ => firstItemErr f rest

/-- Method `PostgresOrderRepository.CreateWithTx` (part_000 lines 266-307): insert
the order row (`RETURNING id`), write the generated id back onto the order,
then insert each item row; all writes go to the transaction buffer `txDB`
and are returned for the caller to commit. -/
def createWithTx (env : TxEnv) (order : Order) (txDB : DB) :
    Except Err (Order × DB) :=
  match env.orderInsertOk with
  | .error m => .error (.other m)
  | .ok id =>
    match firstItemErr env.itemInsertOk order.items with
    | some m => .error (.other m)
    | none =>
      .ok ({ order with id := id },
        { orders := txDB.orders ++
            [{ id := id, userID := order.userID, status := order.status,
               subtotal := order.subtotal, shipping := order.shipping,
               total := order.total, createdAt := env.now }],
          items := txDB.items ++ order.items.map (fun item =>
            { orderID := id, productID := item.productID,
              productName := item.productName, quantity := item.quantity,
              price := item.price, subtotal := item.subtotal }) })

/-- Observable outcome of one `CreateOrder` call: the returned value, the
committed database afterwards, and whether the transaction was begun,
committed, and discarded-without-commit (the deferred `tx.Rollback`).
On the success path the deferred rollback still runs but is a no-op on a
committed pgx transaction, so `rolledBack` records an effective rollback. -/
structure CreateResult where
  result : Except Err Order
  db : DB
  began : Bool
  committed : Bool
  rolledBack : Bool
deriving DecidableEq, Repr

/-- The in-memory order built by `OrderService.CreateOrder` before the
transaction (service.go lines 85-113): enriched items, accumulated
subtotal, fixed shipping 5.00, total = subtotal + 5.00, status "pending";
id and creation time are not set by the service. -/
def orderOf (req : CreateOrderRequest) : Order :=
  { id := 0, userID := req.userID, status := "pending",
    items := req.items.map enrichItem,
    subtotal := computeSubtotal req.items, shipping := 5,
    total := computeSubtotal req.items + 5, createdAt := 0 }

/-- Method `OrderService.CreateOrder` (service.go lines 71-157): reject empty item
lists with `ErrInvalidOrder`; enrich items and accumulate the subtotal
(`orderOf`); begin a transaction, insert through `CreateWithTx`, commit;
on any failure after begin the deferred rollback discards the transaction
buffer and the committed state is unchanged. -/
def createOrderService (env : TxEnv) (db : DB) (req : CreateOrderRequest) :
    CreateResult :=
  if req.items.isEmpty then
    { result := .error .invalidOrder, db := db,
      began := false, committed := false, rolledBack := false }
  else
    match env.beginOk with
    | .error m =>
      { result := .error (.other m), db := db,
        began := false, committed := false, rolledBack := false }
    | .ok _ =>
      match createWithTx env (orderOf req) db with
      | .error e =>
        { result := .error e, db := db,
          began := true, committed := false, rolledBack := true }
      | .ok (order2, txDB) =>
        match env.commitOk with
        | .error m =>
          { result := .error (.other m), db := db,
            began := true, committed := false, rolledBack := true }
        | .ok _ =>
          { result := .ok order2, db := txDB,
            began := true, committed := true, rolledBack := false }

/-! ### Repository reads (part_000, `PostgresOrderRepository`) -/

/-- Conversion of an `order_items` row into a `domain.OrderItem`, as scanned
by `FindByID` (part_000 lines 184-191). -/
def itemRowToItem (row : ItemRow) : OrderItem :=
  { productID := row.productID, productName := row.productName,
    quantity := row.quantity, price := row.price, subtotal := row.subtotal }

/-- Conversion of an `orders` row into a `domain.Order` with no items
attached, as scanned by `FindByUserID` (part_000 lines 212-221): the by-user
query selects only order columns and never runs the items query. -/
def rowToOrderNoItems (row : OrderRow) : Order :=
  { id := row.id, userID := row.userID, status := row.status,
    items := [], subtotal := row.subtotal, shipping := row.shipping,
    total := row.total, createdAt := row.createdAt }

/-- Method `PostgresOrderRepository.FindByID` (part_000 lines 143-194): select the
order row by id (`pgx.ErrNoRows` becomes `domain.ErrNotFound`), then select
and attach all `order_items` rows of that order. -/
def findByID (db : DB) (id : Nat) : Except Err Order :=
  match db.orders.find? (fun row => row.id == id) with
  | none => .error .notFound
  | some row =>
    .ok { id := row.id, userID := row.userID, status := row.status,
          subtotal := row.subtotal, shipping := row.shipping,
          total := row.total, createdAt := row.createdAt,
          items := (db.items.filter (fun it => it.orderID == row.id)).map
            itemRowToItem }

/-- Ordering used by `ORDER BY created_at DESC`: `a` may precede `b` when
`b` was created no later than `a` (newest first). -/
def newerFirst (a b : OrderRow) : Prop := b.createdAt ≤ a.createdAt

instance : DecidableRel newerFirst := fun a b =>
  inferInstanceAs (Decidable (b.createdAt ≤ a.createdAt))

instance : IsTotal OrderRow newerFirst :=
  ⟨fun a b => (le_total a.createdAt b.createdAt).symm⟩

instance : IsTrans OrderRow newerFirst :=
  ⟨fun _ _ _ hab hbc => le_trans hbc hab⟩

/-- Method `PostgresOrderRepository.FindByUserID` (part_000 lines 197-224):
`SELECT ... WHERE user_id = $1 ORDER BY created_at DESC`, scanning only
order columns (items stay empty).  The SQL sort is modelled by insertion
sort under `newerFirst`. -/
def findByUserID (db : DB) (uid : String) : List Order :=
  (List.insertionSort newerFirst
    (db.orders.filter (fun row => row.userID == uid))).map rowToOrderNoItems

/-! ### Service reads (service.go) -/

/-- Error translation of `OrderService.GetOrder` (service.go lines 48-68):
`domain.ErrNotFound` becomes `ErrOrderNotFound`; any other repository
error is returned unchanged. -/
def getOrderSvc (repoRes : Except Err Order) : Except Err Order :=
  match repoRes with
  | .error .notFound => .error .orderNotFound
  | .error e => .error e
  | .ok order => .ok order

/-- Service read `OrderService.GetOrder` composed with the Postgres repository. -/
def getOrderDB (db : DB) (id : Nat) : Except Err Order :=
  getOrderSvc (findByID db id)

/-- Method `OrderService.ListOrders` (service.go lines 29-45): delegates to the
repository, returning its error or its order list verbatim. -/
def listOrdersSvc (repoRes : Except Err (List Order)) :
    Except Err (List Order) :=
  match repoRes with
  | .error e => .error e
  | .ok orders => .ok orders

/-- Service read `OrderService.ListOrders` composed with the Postgres repository. -/
def listOrdersDB (db : DB) (uid : String) : Except Err (List Order) :=
  listOrdersSvc (.ok (findByUserID db uid))

/-! ### Aggregation gateway (internal/web/v1/aggregation.go) -/

/-- Struct `Shipment`, the response shape of the shipping service (aggregation.go
lines 27-36). -/
structure Shipment where
  id : Int
  orderID : Int
  trackingNumber : String
  carrier : String
  status : String
  estimatedDelivery : Option String
  createdAt : String
  updatedAt : String
deriving DecidableEq, Repr

/-- Outcome of the HTTP round trip performed by
`ShippingClient.GetShipmentByOrderID`: a transport failure (connection
error or timeout), or a response with its status code and the result of
decoding its body as a `Shipment` (`none` = decode failure). -/
inductive HttpOutcome where
  | transportError (msg : String)
  | response (status : Nat) (decoded : Option Shipment)
deriving DecidableEq, Repr

/-- Method `ShippingClient.GetShipmentByOrderID` (aggregation.go lines 55-84):
transport failure is an error; status 404 means "no shipment yet" and is
returned as `ok none`; any other non-200 status is an error; a 200 body
that fails to decode is an error; otherwise the decoded shipment. -/
def getShipmentByOrderID (out : HttpOutcome) :
    Except String (Option Shipment) :=
  match out with
  | .transportError m => .error ("shipping service call failed: " ++ m)
  | .response status decoded =>
    if status == 404 then .ok none
    else if status != 200 then
      .error ("shipping service returned status " ++ toString status)
    else
      match decoded with
      | none => .error "failed to decode shipment response"
      | some s => .ok (some s)

/-- Struct `OrderDetailsResponse` (aggregation.go lines 39-42). -/
structure OrderDetailsResponse where
  order : Order
  shipment : Option Shipment
deriving DecidableEq, Repr

/-- HTTP reply of the details endpoint. -/
inductive DetailsReply where
  | ok200 (r : OrderDetailsResponse)
  | notFound404
  | serverError500
deriving DecidableEq, Repr

/-- Handler `GetOrderDetails` (aggregation.go lines 96-158): fetch the
order through the service (`ErrOrderNotFound` maps to 404, any other error
to 500); then, when a shipping client is set, attempt the shipment lookup —
its error is logged and swallowed, leaving the shipment `none` (the Go
client returns a nil shipment on every error path); reply 200 with the
order and the optional shipment. -/
def getOrderDetails (orderRes : Except Err Order) (clientSet : Bool)
    (shipRes : Except String (Option Shipment)) : DetailsReply :=
  match orderRes with
  | .error .orderNotFound => .notFound404
  | .error _ => .serverError500
  | .ok order =>
    let shipment : Option Shipment :=
      if clientSet then
        match shipRes with
        | .ok s => s
        | .error _ => none
      else none
    .ok200 { order := order, shipment := shipment }

/-- Shipment lookups that do not produce a shipment: transport failure,
any non-200 status (404 included), or a 200 body that fails to decode. -/
def shipFails (out : HttpOutcome) : Bool :=
  match out with
  | .transportError _ => true
  | .response status decoded => status != 200 || decoded.isNone

/-! ### Order handler (internal/web/v1/handler.go, validation.go,
cart_client.go) -/

/-- Substring test used to model Go `strings.Contains`. -/
def containsStr (s pat : String) : Bool := (s.splitOn pat).length != 1

/-- Function `sanitizeValidationError` (validation.go lines 7-23) applied to the
message of a non-nil binding error. -/
def sanitizeValidationError (msg : String) : String :=
  if containsStr msg "validation" || containsStr msg "Field validation" ||
      containsStr msg "cannot unmarshal" || containsStr msg "bind" ||
      containsStr msg "Key:" then
    "Invalid request"
  else if msg.length < 100 && !containsStr msg "Error:" then msg
  else "Invalid request"

/-- HTTP reply of the creation handler. -/
inductive CreateReply where
  | created201 (order : Order)
  | badRequest400 (msg : String)
  | unauthorized401
  | serverError500
deriving DecidableEq, Repr

/-- Observable outcome of one `OrderHandler.CreateOrder` call: the HTTP
reply, the committed database afterwards, whether the order service was
invoked, and whether a cart-clear call was attempted. -/
structure HandlerResult where
  reply : CreateReply
  db : DB
  serviceCalled : Bool
  cartClearTried : Bool
deriving DecidableEq, Repr

/-- Handler `OrderHandler.CreateOrder` (handler.go lines 86-142): bind the JSON
body (failure → 400 with sanitized message); require `user_id` in the
request context (`c.GetString` yields `""` when absent → 401, service not
invoked); overwrite the payload's user id with the context identity; call
the service (`ErrInvalidOrder` → 400, other errors → 500); on success make
a best-effort cart clear when the cart client is set — its result is only
logged — and reply 201 with the created order. -/
def handleCreateOrder (env : TxEnv) (db : DB)
    (bindRes : Except String CreateOrderRequest)
    (ctxUserID : String) (cartSet : Bool)
    (_cartRes : Except String Unit) : HandlerResult :=
  match bindRes with
  | .error e =>
    { reply := .badRequest400 (sanitizeValidationError e), db := db,
      serviceCalled := false, cartClearTried := false }
  | .ok req0 =>
    if ctxUserID = "" then
      { reply := .unauthorized401, db := db,
        serviceCalled := false, cartClearTried := false }
    else
      let req : CreateOrderRequest :=
        { userID := ctxUserID, items := req0.items }
      let out := createOrderService env db req
      match out.result with
      | .error .invalidOrder =>
        { reply := .badRequest400 "Invalid order", db := out.db,
          serviceCalled := true, cartClearTried := false }
      | .error _ =>
        { reply := .serverError500, db := out.db,
          serviceCalled := true, cartClearTried := false }
      | .ok order =>
        -- `cartRes` is inspected only for logging in the Go code.
        { reply := .created201 order, db := out.db,
          serviceCalled := true, cartClearTried := cartSet }

/-! ### Helper lemmas -/

lemma foldl_subtotal (l : List OrderItem) (a : ℚ) :
    l.foldl (fun acc item => acc + item.price * (item.quantity : ℚ)) a
      = a + (l.map (fun item => item.price * (item.quantity : ℚ))).sum := by
  induction l generalizing a with
  | nil => simp
  | cons x xs ih => simp [List.foldl_cons, ih, add_assoc]

lemma computeSubtotal_eq_sum (l : List OrderItem) :
    computeSubtotal l
      = (l.map (fun item => item.price * (item.quantity : ℚ))).sum := by
  simpa using foldl_subtotal l 0

lemma firstItemErr_none {f : OrderItem → Except String Unit}
    {l : List OrderItem} (h : firstItemErr f l = none) :
    ∀ item ∈ l, ∀ m, f item ≠ .error m := by
  induction l with
  | nil => simp
  | cons x xs ih =>
    intro item hmem m
    unfold firstItemErr at h
    cases hx : f x with
    | error m0 => rw [hx] at h; exact absurd h (by simp)
    | ok u =>
      rw [hx] at h
      rcases List.mem_cons.mp hmem with rfl | hmem2
      · rw [hx]; exact fun hc => Except.noConfusion hc
      · exact ih h item hmem2 m

lemma createWithTx_ok {env : TxEnv} {order : Order} {txDB : DB}
    {order2 : Order} {db2 : DB}
    (h : createWithTx env order txDB = .ok (order2, db2)) :
    ∃ id, env.orderInsertOk = .ok id ∧
      firstItemErr env.itemInsertOk order.items = none ∧
      order2 = { order with id := id } ∧
      db2 = { orders := txDB.orders ++
                [{ id := id, userID := order.userID, status := order.status,
                   subtotal := order.subtotal, shipping := order.shipping,
                   total := order.total, createdAt := env.now }],
              items := txDB.items ++ order.items.map (fun item =>
                { orderID := id, productID := item.productID,
                  productName := item.productName, quantity := item.quantity,
                  price := item.price, subtotal := item.subtotal }) } := by
  unfold createWithTx at h
  cases hins : env.orderInsertOk with
  | error m => rw [hins] at h; exact absurd h (by simp)
  | ok id =>
    rw [hins] at h
    cases hfirst : firstItemErr env.itemInsertOk order.items with
    | some m => rw [hfirst] at h; exact absurd h (by simp)
    | none =>
      rw [hfirst] at h
      refine ⟨id, rfl, rfl, ?_, ?_⟩
      · exact (Prod.mk.injEq _ _ _ _ ▸ (Except.ok.injEq _ _ ▸ h.symm)).1
      · exact (Prod.mk.injEq _ _ _ _ ▸ (Except.ok.injEq _ _ ▸ h.symm)).2

/-- Inversion of a successful `CreateOrder`: the request was non-empty, an
id was generated, the returned order is the service-built order with that
id, the transaction was begun and committed, and the committed database
gained exactly the order row and its item rows. -/
lemma createOrderService_ok {env : TxEnv} {db : DB}
    {req : CreateOrderRequest} {o : Order}
    (h : (createOrderService env db req).result = .ok o) :
    req.items ≠ [] ∧
    ∃ id, env.orderInsertOk = .ok id ∧
      o = { orderOf req with id := id } ∧
      (createOrderService env db req).began = true ∧
      (createOrderService env db req).committed = true ∧
      (createOrderService env db req).db =
        { orders := db.orders ++
            [{ id := id, userID := req.userID, status := "pending",
               subtotal := computeSubtotal req.items, shipping := 5,
               total := computeSubtotal req.items + 5, createdAt := env.now }],
          items := db.items ++ (req.items.map enrichItem).map (fun item =>
            { orderID := id, productID := item.productID,
              productName := item.productName, quantity := item.quantity,
              price := item.price, subtotal := item.subtotal }) } := by
  unfold createOrderService at h ⊢
  by_cases he : req.items.isEmpty
  · rw [if_pos he] at h; exact absurd h (by simp)
  · rw [if_neg he] at h
    rw [if_neg he]
    refine ⟨by simpa [List.isEmpty_iff] using he, ?_⟩
    cases hb : env.beginOk with
    | error m => rw [hb] at h; exact absurd h (by simp)
    | ok u =>
      rw [hb] at h
      cases hc : createWithTx env (orderOf req) db with
      | error e => rw [hc] at h; exact absurd h (by simp)
      | ok p =>
        obtain ⟨order2, txDB⟩ := p
        rw [hc] at h
        cases hk : env.commitOk with
        | error m => rw [hk] at h; exact absurd h (by simp)
        | ok u2 =>
          rw [hk] at h
          simp only [Except.ok.injEq] at h
          obtain ⟨id, hins, _, horder, hdb⟩ := createWithTx_ok hc
          refine ⟨id, hins, ?_, rfl, rfl, ?_⟩
          · rw [← h, horder]
          · exact hdb.trans (by rfl)

/-! ### Claims -/

/-- Claim C1: for every `create_order` request that succeeds, the returned
order has subtotal equal to the sum of `price_i * quantity_i` over the
requested items, shipping 5.00, total = subtotal + 5.00, status "pending";
its items are the enriched request items, and enrichment gives each item a
subtotal of `price * quantity`, preserves price and quantity, and
synthesizes the name "Product <product_id>" when the input name was
absent. -/
theorem c1_create_order_arithmetic (env : TxEnv) (db : DB)
    (req : CreateOrderRequest) (o : Order)
    (h : (createOrderService env db req).result = .ok o) :
    o.subtotal
        = (req.items.map (fun item => item.price * (item.quantity : ℚ))).sum ∧
    o.shipping = 5 ∧
    o.total = o.subtotal + 5 ∧
    o.status = "pending" ∧
    o.items = req.items.map enrichItem ∧
    (∀ item : OrderItem,
      (enrichItem item).subtotal = item.price * (item.quantity : ℚ) ∧
      (enrichItem item).price = item.price ∧
      (enrichItem item).quantity = item.quantity ∧
      (item.productName = "" →
        (enrichItem item).productName = "Product " ++ item.productID)) := by
  obtain ⟨-, id, -, ho, -⟩ := createOrderService_ok h
  subst ho
  refine ⟨?_, rfl, rfl, rfl, rfl, ?_⟩
  · simpa [orderOf] using computeSubtotal_eq_sum req.items
  · intro item
    refine ⟨rfl, rfl, rfl, fun hname => ?_⟩
    simp [enrichItem, hname]

/-! ### Concrete fixtures used by witnesses -/

/-- A backend environment in which every statement succeeds and the
generated order id is 7. -/
def envAllOk : TxEnv :=
  { beginOk := .ok (), orderInsertOk := .ok 7,
    itemInsertOk := fun _ => .ok (), commitOk := .ok (), now := 3 }

/-- The empty committed database. -/
def dbEmpty : DB := { orders := [], items := [] }

/-- The spec's concrete creation scenario: 2 × 10.00 and 1 × 5.00, the
second product name absent on input. -/
def reqDemo : CreateOrderRequest :=
  { userID := "u1",
    items := [{ productID := "p1", productName := "Mouse",
                quantity := 2, price := 10, subtotal := 0 },
              { productID := "p2", productName := "",
                quantity := 1, price := 5, subtotal := 0 }] }

/-- The order `createOrderService envAllOk dbEmpty reqDemo` returns. -/
def orderDemo : Order :=
  { id := 7, userID := "u1", status := "pending",
    items := [{ productID := "p1", productName := "Mouse",
                quantity := 2, price := 10, subtotal := 20 },
              { productID := "p2", productName := "Product p2",
                quantity := 1, price := 5, subtotal := 5 }],
    subtotal := 25, shipping := 5, total := 30, createdAt := 0 }

lemma createOrderService_demo :
    (createOrderService envAllOk dbEmpty reqDemo).result =
      .ok orderDemo := by
  show (createOrderService envAllOk dbEmpty reqDemo).result = _
  norm_num [createOrderService, createWithTx, orderOf, enrichItem,
    computeSubtotal, firstItemErr, envAllOk, dbEmpty, reqDemo, orderDemo,
    List.foldl]
  exact ⟨fun hc => absurd hc (by decide), by decide⟩

/-- Witness for C1 at the spec's concrete scenario: subtotal 25,
shipping 5, total 30, status "pending", names "Mouse" and "Product p2". -/
theorem c1_witness :
    orderDemo.subtotal
        = (reqDemo.items.map
            (fun item => item.price * (item.quantity : ℚ))).sum ∧
    orderDemo.shipping = 5 ∧
    orderDemo.total = orderDemo.subtotal + 5 ∧
    orderDemo.status = "pending" ∧
    orderDemo.items = reqDemo.items.map enrichItem ∧
    (∀ item : OrderItem,
      (enrichItem item).subtotal = item.price * (item.quantity : ℚ) ∧
      (enrichItem item).price = item.price ∧
      (enrichItem item).quantity = item.quantity ∧
      (item.productName = "" →
        (enrichItem item).productName = "Product " ++ item.productID)) :=
  c1_create_order_arithmetic envAllOk dbEmpty reqDemo orderDemo
    createOrderService_demo

/-- Claim C2: `create_order` with an empty item list fails with
`InvalidOrder` and performs no persistence: the transaction is neither
begun nor committed and the committed database is unchanged. -/
theorem c2_empty_items_no_persistence (env : TxEnv) (db : DB)
    (req : CreateOrderRequest) (h : req.items = []) :
    createOrderService env db req =
      { result := .error .invalidOrder, db := db,
        began := false, committed := false, rolledBack := false } := by
  unfold createOrderService
  rw [if_pos (by simp [h])]

/-- A row lookup for an id no order row carries yields the store's
not-found signal. -/
lemma findByID_fresh {db : DB} {id : Nat}
    (h : ∀ row ∈ db.orders, row.id ≠ id) :
    findByID db id = .error .notFound := by
  unfold findByID
  have hnone : db.orders.find? (fun row => row.id == id) = none :=
    List.find?_eq_none.mpr (fun row hrow => by simpa using h row hrow)
  rw [hnone]

/-- Some step between transaction begin and commit fails: the order-row
insert errors, some item insert errors, or the commit errors. -/
def stepFails (env : TxEnv) (items : List OrderItem) : Prop :=
  (∃ m, env.orderInsertOk = .error m) ∨
  (∃ item ∈ items, ∃ m, env.itemInsertOk item = .error m) ∨
  (∃ m, env.commitOk = .error m)

/-- Claim C3: whenever any step between transaction begin and commit fails
(order-row insert, any item insert, or commit), `create_order` returns an
error, the transaction was begun but not committed and was rolled back, the
committed database is unchanged, and the (fresh) generated order id is not
visible to a subsequent `get_order`. -/
theorem c3_rollback_on_failure (env : TxEnv) (db : DB)
    (req : CreateOrderRequest) (hne : req.items ≠ [])
    (hb : env.beginOk = .ok ())
    (hf : stepFails env (req.items.map enrichItem)) :
    (∃ e, (createOrderService env db req).result = .error e) ∧
    (createOrderService env db req).began = true ∧
    (createOrderService env db req).committed = false ∧
    (createOrderService env db req).rolledBack = true ∧
    (createOrderService env db req).db = db ∧
    (∀ id, env.orderInsertOk = .ok id → (∀ row ∈ db.orders, row.id ≠ id) →
      getOrderDB (createOrderService env db req).db id
        = .error .orderNotFound) := by
  have he : ¬req.items.isEmpty = true := by
    simpa [List.isEmpty_iff] using hne
  unfold createOrderService
  rw [if_neg he, hb]
  cases hc : createWithTx env (orderOf req) db with
  | error e =>
    refine ⟨⟨e, rfl⟩, rfl, rfl, rfl, rfl, ?_⟩
    intro id _ hfresh
    show getOrderDB db id = _
    unfold getOrderDB
    rw [findByID_fresh hfresh]
    rfl
  | ok p =>
    obtain ⟨order2, txDB⟩ := p
    obtain ⟨id, hins, hnone, -, -⟩ := createWithTx_ok hc
    have hnone2 : firstItemErr env.itemInsertOk (req.items.map enrichItem)
        = none := by simpa [orderOf] using hnone
    rcases hf with ⟨m, hm⟩ | ⟨item, hmem, m, hm⟩ | ⟨m, hm⟩
    · rw [hins] at hm; exact absurd hm (by simp)
    · exact absurd hm (firstItemErr_none hnone2 item hmem m)
    · rw [hm]
      refine ⟨⟨.other m, rfl⟩, rfl, rfl, rfl, rfl, ?_⟩
      intro id2 _ hfresh
      show getOrderDB db id2 = _
      unfold getOrderDB
      rw [findByID_fresh hfresh]
      rfl

/-- A backend environment in which the commit step fails. -/
def envCommitFails : TxEnv :=
  { beginOk := .ok (), orderInsertOk := .ok 7,
    itemInsertOk := fun _ => .ok (), commitOk := .error "commit failed",
    now := 3 }

/-- Witness for C3: a commit failure on the demo request leaves the empty
database unchanged, uncommitted and rolled back. -/
theorem c3_witness :
    (∃ e, (createOrderService envCommitFails dbEmpty reqDemo).result
        = .error e) ∧
    (createOrderService envCommitFails dbEmpty reqDemo).began = true ∧
    (createOrderService envCommitFails dbEmpty reqDemo).committed = false ∧
    (createOrderService envCommitFails dbEmpty reqDemo).rolledBack = true ∧
    (createOrderService envCommitFails dbEmpty reqDemo).db = dbEmpty ∧
    (∀ id, envCommitFails.orderInsertOk = .ok id →
      (∀ row ∈ dbEmpty.orders, row.id ≠ id) →
      getOrderDB (createOrderService envCommitFails dbEmpty reqDemo).db id
        = .error .orderNotFound) :=
  c3_rollback_on_failure envCommitFails dbEmpty reqDemo (by decide) rfl
    (Or.inr (Or.inr ⟨"commit failed", rfl⟩))

/-- Witness for C2: a concrete empty-items request. -/
theorem c2_witness :
    createOrderService
      { beginOk := .ok (), orderInsertOk := .ok 7,
        itemInsertOk := fun _ => .ok (), commitOk := .ok (), now := 3 }
      { orders := [], items := [] }
      { userID := "u1", items := [] } =
    { result := .error .invalidOrder, db := { orders := [], items := [] },
      began := false, committed := false, rolledBack := false } :=
  c2_empty_items_no_persistence _ _ _ rfl

/-- A creation request whose single item has a non-positive quantity;
`CreateOrder` performs no quantity or price validation. -/
def reqNegQty : CreateOrderRequest :=
  { userID := "u1",
    items := [{ productID := "p1", productName := "Widget",
                quantity := -3, price := 2, subtotal := 0 }] }

/-- The order the service accepts and commits for `reqNegQty`. -/
def orderNeg : Order :=
  { id := 7, userID := "u1", status := "pending",
    items := [{ productID := "p1", productName := "Widget",
                quantity := -3, price := 2, subtotal := -6 }],
    subtotal := -6, shipping := 5, total := -1, createdAt := 0 }

/-- Counterexample to C8 as stated: `create_order` accepts an item with
quantity −3 (and hence a negative item subtotal and order subtotal);
no validation of `quantity > 0` or `price ≥ 0` exists in the code. -/
theorem c8_counterexample :
    (createOrderService envAllOk dbEmpty reqNegQty).result
        = .ok orderNeg ∧
    ∃ item ∈ orderNeg.items,
      item.quantity ≤ 0 ∧ item.subtotal < 0 ∧ orderNeg.subtotal < 0 := by
  constructor
  · show (createOrderService envAllOk dbEmpty reqNegQty).result = _
    norm_num [createOrderService, createWithTx, orderOf, enrichItem,
      computeSubtotal, firstItemErr, envAllOk, dbEmpty, reqNegQty, orderNeg,
      List.foldl]
    exact fun hc => absurd hc (by decide)
  · exact ⟨{ productID := "p1", productName := "Widget",
             quantity := -3, price := 2, subtotal := -6 },
      by simp [orderNeg], by decide, by norm_num [orderNeg],
      by norm_num [orderNeg]⟩

/-- Claim C8 (amended): `create_order` does not validate quantity or
price; however each accepted item's subtotal equals price × quantity, so
whenever every requested item has quantity > 0 and price ≥ 0, every item
subtotal and the order subtotal are non-negative. -/
theorem c8_nonneg_subtotals (env : TxEnv) (db : DB)
    (req : CreateOrderRequest) (o : Order)
    (h : (createOrderService env db req).result = .ok o)
    (hpos : ∀ item ∈ req.items, 0 < item.quantity ∧ 0 ≤ item.price) :
    (∀ item ∈ o.items, 0 ≤ item.subtotal) ∧ 0 ≤ o.subtotal := by
  obtain ⟨-, id, -, ho, -, -, -⟩ := createOrderService_ok h
  subst ho
  have hterm : ∀ src ∈ req.items, 0 ≤ src.price * (src.quantity : ℚ) := by
    intro src hsrc
    exact mul_nonneg (hpos src hsrc).2
      (by exact_mod_cast (hpos src hsrc).1.le)
  constructor
  · intro item hmem
    have hmem2 : item ∈ req.items.map enrichItem := hmem
    obtain ⟨src, hsrc, rfl⟩ := List.mem_map.mp hmem2
    simpa [enrichItem] using hterm src hsrc
  · show 0 ≤ computeSubtotal req.items
    rw [computeSubtotal_eq_sum]
    refine List.sum_nonneg ?_
    intro x hx
    obtain ⟨src, hsrc, rfl⟩ := List.mem_map.mp hx
    exact hterm src hsrc

/-- Witness for the amended C8 at the demo request (quantities 2 and 1,
prices 10 and 5). -/
theorem c8_witness :
    (∀ item ∈ orderDemo.items, 0 ≤ item.subtotal) ∧
    0 ≤ orderDemo.subtotal :=
  c8_nonneg_subtotals envAllOk dbEmpty reqDemo orderDemo
    createOrderService_demo (by decide)

/-- Claim C5: `get_order` on an id no stored order carries returns the
domain-specific `OrderNotFound`, never the store's raw not-found signal;
every other store failure is propagated unchanged by the service. -/
theorem c5_get_order_translation :
    (∀ db id, (∀ row ∈ db.orders, row.id ≠ id) →
      getOrderDB db id = .error .orderNotFound) ∧
    (∀ e, e ≠ Err.notFound → getOrderSvc (.error e) = .error e) := by
  constructor
  · intro db id h
    unfold getOrderDB
    rw [findByID_fresh h]
    rfl
  · intro e he
    cases e with
    | notFound => exact absurd rfl he
    | orderNotFound => rfl
    | invalidOrder => rfl
    | other m => rfl

/-- Witness for C5: an unknown id on the empty database, and a non-signal
store error passed through verbatim. -/
theorem c5_witness :
    getOrderDB dbEmpty 42 = .error .orderNotFound ∧
    getOrderSvc (.error (.other "connection reset"))
      = .error (.other "connection reset") :=
  ⟨c5_get_order_translation.1 dbEmpty 42 (by simp [dbEmpty]),
   c5_get_order_translation.2 (.other "connection reset") (by decide)⟩

/-- A failing shipment lookup yields either `ok none` (404) or an error,
never a shipment. -/
lemma getShipment_noShipment {out : HttpOutcome}
    (hfail : shipFails out = true) :
    getShipmentByOrderID out = .ok none ∨
      ∃ m, getShipmentByOrderID out = .error m := by
  cases out with
  | transportError m => exact Or.inr ⟨_, rfl⟩
  | response status decoded =>
    unfold getShipmentByOrderID
    dsimp only
    by_cases h404 : (status == 404) = true
    · rw [if_pos h404]; exact Or.inl rfl
    · rw [if_neg h404]
      by_cases h200 : (status != 200) = true
      · rw [if_pos h200]; exact Or.inr ⟨_, rfl⟩
      · rw [if_neg h200]
        have hdec : decoded = none := by
          simp only [shipFails, Bool.or_eq_true] at hfail
          rcases hfail with hfail | hfail
          · exact absurd hfail h200
          · exact Option.isNone_iff_eq_none.mp hfail
        subst hdec
        exact Or.inr ⟨_, rfl⟩

/-- When the shipment lookup produced no shipment, the details endpoint
still replies 200 with the order and no shipment. -/
lemma getOrderDetails_noShipment {o : Order}
    {shipRes : Except String (Option Shipment)}
    (h : shipRes = .ok none ∨ ∃ m, shipRes = .error m) :
    getOrderDetails (.ok o) true shipRes
      = .ok200 { order := o, shipment := none } := by
  rcases h with rfl | ⟨m, rfl⟩ <;> rfl

/-- Claim C4: for every order id present in the store,
`get_order_details` finds the order, and for every shipment lookup that
does not produce a shipment (transport failure or timeout, any non-200
status — 404 included — or a decode failure) the endpoint still replies
200 with that same order and the shipment absent. -/
theorem c4_details_resilient (db : DB) (id : Nat)
    (h : ∃ row ∈ db.orders, row.id = id) :
    ∃ o, getOrderDB db id = .ok o ∧
      ∀ out : HttpOutcome, shipFails out = true →
        getOrderDetails (getOrderDB db id) true (getShipmentByOrderID out)
          = .ok200 { order := o, shipment := none } := by
  obtain ⟨row, hrow, hid⟩ := h
  have hsome : (db.orders.find? (fun r => r.id == id)).isSome :=
    List.find?_isSome.mpr ⟨row, hrow, by simp [hid]⟩
  obtain ⟨r, hr⟩ := Option.isSome_iff_exists.mp hsome
  have hfind : getOrderDB db id =
      .ok { id := r.id, userID := r.userID, status := r.status,
            subtotal := r.subtotal, shipping := r.shipping,
            total := r.total, createdAt := r.createdAt,
            items := (db.items.filter (fun it => it.orderID == r.id)).map
              itemRowToItem } := by
    unfold getOrderDB findByID
    rw [hr]
    rfl
  refine ⟨_, hfind, ?_⟩
  intro out hfail
  rw [hfind]
  exact getOrderDetails_noShipment (getShipment_noShipment hfail)

/-- A database holding one order with one item. -/
def dbOne : DB :=
  { orders := [{ id := 1, userID := "u1", status := "pending",
                 subtotal := 10, shipping := 5, total := 15,
                 createdAt := 50 }],
    items := [{ orderID := 1, productID := "p1", productName := "Mouse",
                quantity := 1, price := 10, subtotal := 10 }] }

/-- Witness for C4: order id 1 is present in `dbOne`, so the details
endpoint replies 200 with the order and no shipment for every failing
shipment lookup. -/
theorem c4_witness :
    ∃ o, getOrderDB dbOne 1 = .ok o ∧
      ∀ out : HttpOutcome, shipFails out = true →
        getOrderDetails (getOrderDB dbOne 1) true (getShipmentByOrderID out)
          = .ok200 { order := o, shipment := none } :=
  c4_details_resilient dbOne 1
    ⟨{ id := 1, userID := "u1", status := "pending", subtotal := 10,
       shipping := 5, total := 15, createdAt := 50 },
     by simp [dbOne], rfl⟩

/-- Claim C9: `list_orders` returns exactly the user's orders — a
permutation of the stored order rows whose `user_id` matches, all carrying
that user id — sorted newest first by creation time; a user with zero
orders gets an empty sequence, not an error; and a store failure is
propagated verbatim by the service. -/
theorem c9_list_orders :
    (∀ db uid, (∀ row ∈ db.orders, row.userID ≠ uid) →
      listOrdersDB db uid = .ok []) ∧
    (∀ db uid orders, listOrdersDB db uid = .ok orders →
      orders.Perm ((db.orders.filter
        (fun row => row.userID == uid)).map rowToOrderNoItems) ∧
      (∀ o ∈ orders, o.userID = uid) ∧
      orders.Pairwise (fun a b => b.createdAt ≤ a.createdAt)) ∧
    (∀ e, listOrdersSvc (.error e) = .error e) := by
  refine ⟨?_, ?_, fun e => rfl⟩
  · intro db uid h
    unfold listOrdersDB listOrdersSvc findByUserID
    rw [List.filter_eq_nil_iff.mpr
      (fun row hrow => by simpa using h row hrow)]
    rfl
  · intro db uid orders h
    unfold listOrdersDB listOrdersSvc at h
    simp only [Except.ok.injEq] at h
    subst h
    unfold findByUserID
    refine ⟨?_, ?_, ?_⟩
    · exact (List.perm_insertionSort newerFirst _).map rowToOrderNoItems
    · intro o ho
      obtain ⟨row, hrow, rfl⟩ := List.mem_map.mp ho
      have hrow2 : row ∈ db.orders.filter (fun row => row.userID == uid) :=
        (List.perm_insertionSort newerFirst _).mem_iff.mp hrow
      have hbeq := (List.mem_filter.mp hrow2).2
      simpa [rowToOrderNoItems] using hbeq
    · have hs : (List.insertionSort newerFirst
          (db.orders.filter (fun row => row.userID == uid))).Pairwise
          newerFirst :=
        List.sorted_insertionSort newerFirst _
      exact hs.map _ (fun a b hab => hab)

/-- A second database with two orders of one user, inserted oldest first. -/
def dbTwo : DB :=
  { orders := [{ id := 1, userID := "u1", status := "pending",
                 subtotal := 10, shipping := 5, total := 15,
                 createdAt := 50 },
               { id := 2, userID := "u1", status := "shipped",
                 subtotal := 20, shipping := 5, total := 25,
                 createdAt := 90 }],
    items := [] }

/-- Witness for C9: a user with no orders gets `ok []`; the two-order
user's list is a permutation of exactly that user's stored rows, all
owned by "u1" and sorted newest first; a store error passes through. -/
theorem c9_witness :
    listOrdersDB dbTwo "nobody" = .ok [] ∧
    ((findByUserID dbTwo "u1").Perm ((dbTwo.orders.filter
        (fun row => row.userID == "u1")).map rowToOrderNoItems) ∧
      (∀ o ∈ findByUserID dbTwo "u1", o.userID = "u1") ∧
      (findByUserID dbTwo "u1").Pairwise
        (fun a b => b.createdAt ≤ a.createdAt)) ∧
    listOrdersSvc (.error (.other "connection reset"))
      = .error (.other "connection reset") :=
  ⟨c9_list_orders.1 dbTwo "nobody" (by decide),
   c9_list_orders.2.1 dbTwo "u1" (findByUserID dbTwo "u1") rfl,
   c9_list_orders.2.2 (.other "connection reset")⟩

/-- Claim C10: every order returned by the by-user query carries an empty
item sequence (the query loads only order rows), whereas `find_by_id`
attaches exactly the order's item rows — so the two snapshots of an order
with items differ in their items field. -/
theorem c10_items_loaded_only_by_id :
    (∀ db uid o, o ∈ findByUserID db uid → o.items = []) ∧
    (∀ db id o, findByID db id = .ok o →
      o.items = (db.items.filter (fun it => it.orderID == id)).map
        itemRowToItem) := by
  constructor
  · intro db uid o ho
    obtain ⟨row, -, rfl⟩ := List.mem_map.mp ho
    rfl
  · intro db id o ho
    unfold findByID at ho
    cases hf : db.orders.find? (fun row => row.id == id) with
    | none => rw [hf] at ho; exact absurd ho (by simp)
    | some row =>
      rw [hf] at ho
      have hid : row.id = id := by simpa using List.find?_some hf
      simp only [Except.ok.injEq] at ho
      subst ho
      show (db.items.filter (fun it => it.orderID == row.id)).map
          itemRowToItem = _
      rw [hid]

/-- Witness for C10 on `dbOne`: the by-user snapshot of order 1 has no
items while the by-id snapshot attaches its item row — the two snapshots
of the same order differ. -/
theorem c10_witness :
    ({ id := 1, userID := "u1", status := "pending", items := [],
       subtotal := 10, shipping := 5, total := 15,
       createdAt := 50 } : Order).items = [] ∧
    ({ id := 1, userID := "u1", status := "pending",
       items := [{ productID := "p1", productName := "Mouse",
                   quantity := 1, price := 10, subtotal := 10 }],
       subtotal := 10, shipping := 5, total := 15,
       createdAt := 50 } : Order).items =
      (dbOne.items.filter (fun it => it.orderID == 1)).map itemRowToItem :=
  ⟨c10_items_loaded_only_by_id.1 dbOne "u1" _ (by decide),
   c10_items_loaded_only_by_id.2 dbOne 1 _ (by decide)⟩

/-- Claim C6: the creation handler binds the created order's user id from
the server-trusted context identity, never from the payload: two bound
payloads differing only in their user id field produce identical outcomes;
every created order carries the context identity; and an empty context
identity yields 401 without invoking the service. -/
theorem c6_user_id_from_context :
    (∀ env db (r1 r2 : CreateOrderRequest) uid cs cr, uid ≠ "" →
      r1.items = r2.items →
      handleCreateOrder env db (.ok r1) uid cs cr
        = handleCreateOrder env db (.ok r2) uid cs cr) ∧
    (∀ env db (r : CreateOrderRequest) uid cs cr o,
      (handleCreateOrder env db (.ok r) uid cs cr).reply = .created201 o →
      o.userID = uid) ∧
    (∀ env db (r : CreateOrderRequest) cs cr,
      handleCreateOrder env db (.ok r) "" cs cr
        = { reply := .unauthorized401, db := db,
            serviceCalled := false, cartClearTried := false }) := by
  refine ⟨?_, ?_, ?_⟩
  · intro env db r1 r2 uid cs cr hne hitems
    unfold handleCreateOrder
    dsimp only
    rw [if_neg hne, if_neg hne, hitems]
  · intro env db r uid cs cr o h
    unfold handleCreateOrder at h
    dsimp only at h
    by_cases hne : uid = ""
    · rw [if_pos hne] at h
      exact absurd h (by simp)
    · rw [if_neg hne] at h
      cases hres : (createOrderService env db
          { userID := uid, items := r.items }).result with
      | error e =>
        rw [hres] at h
        cases e <;> simp at h
      | ok order =>
        rw [hres] at h
        simp only [CreateReply.created201.injEq] at h
        subst h
        obtain ⟨-, id, -, ho, -, -, -⟩ := createOrderService_ok hres
        rw [ho]
        rfl
  · intro env db r cs cr
    unfold handleCreateOrder
    dsimp only
    rw [if_pos rfl]

/-- Witness for C6: payloads claiming user ids "attacker" and "victim"
give the same outcome under context identity "u1"; the demo creation's
order carries "u1"; and an absent identity yields 401 untouched. -/
theorem c6_witness :
    handleCreateOrder envAllOk dbEmpty
        (.ok { userID := "attacker", items := reqDemo.items })
        "u1" true (.ok ())
      = handleCreateOrder envAllOk dbEmpty
        (.ok { userID := "victim", items := reqDemo.items })
        "u1" true (.ok ()) ∧
    orderDemo.userID = "u1" ∧
    handleCreateOrder envAllOk dbEmpty (.ok reqDemo) "" true (.ok ())
      = { reply := .unauthorized401, db := dbEmpty,
          serviceCalled := false, cartClearTried := false } :=
  ⟨c6_user_id_from_context.1 envAllOk dbEmpty
      { userID := "attacker", items := reqDemo.items }
      { userID := "victim", items := reqDemo.items }
      "u1" true (.ok ()) (by decide) rfl,
   c6_user_id_from_context.2.1 envAllOk dbEmpty reqDemo "u1" true (.ok ())
      orderDemo
      (by
        unfold handleCreateOrder
        dsimp only
        rw [if_neg (by decide),
          show ({ userID := "u1", items := reqDemo.items } :
            CreateOrderRequest) = reqDemo from rfl,
          createOrderService_demo]),
   c6_user_id_from_context.2.2 envAllOk dbEmpty reqDemo true (.ok ())⟩

/-- Claim C7: once order creation has committed, the best-effort cart
clear never changes the outcome: for any cart-clear result and whether or
not the cart client is set, the handler replies 201 with the created
order, the committed database (which contains the order row) is the
service's committed state, and it is never reversed. -/
theorem c7_cart_clear_never_reverses (env : TxEnv) (db : DB)
    (r : CreateOrderRequest) (uid : String) (cs : Bool)
    (cr : Except String Unit) (cs2 : Bool) (cr2 : Except String Unit)
    (o : Order) (hne : uid ≠ "")
    (hok : (createOrderService env db
      { userID := uid, items := r.items }).result = .ok o) :
    (handleCreateOrder env db (.ok r) uid cs cr).reply = .created201 o ∧
    (handleCreateOrder env db (.ok r) uid cs cr).db
      = (createOrderService env db { userID := uid, items := r.items }).db ∧
    (createOrderService env db
      { userID := uid, items := r.items }).committed = true ∧
    (∃ row ∈ (handleCreateOrder env db (.ok r) uid cs cr).db.orders,
      row.id = o.id ∧ row.userID = o.userID ∧ row.total = o.total ∧
      row.status = "pending") ∧
    (handleCreateOrder env db (.ok r) uid cs cr).reply
      = (handleCreateOrder env db (.ok r) uid cs2 cr2).reply ∧
    (handleCreateOrder env db (.ok r) uid cs cr).db
      = (handleCreateOrder env db (.ok r) uid cs2 cr2).db := by
  have hhandle : ∀ (cs' : Bool) (cr' : Except String Unit),
      handleCreateOrder env db (.ok r) uid cs' cr' =
        { reply := .created201 o,
          db := (createOrderService env db
            { userID := uid, items := r.items }).db,
          serviceCalled := true, cartClearTried := cs' } := by
    intro cs' cr'
    unfold handleCreateOrder
    dsimp only
    rw [if_neg hne, hok]
  obtain ⟨-, id, hins, ho, -, hcomm, hdb⟩ := createOrderService_ok hok
  subst ho
  refine ⟨by rw [hhandle], by rw [hhandle], hcomm, ?_,
    by rw [hhandle, hhandle], by rw [hhandle, hhandle]⟩
  rw [hhandle cs cr]
  dsimp only
  rw [hdb]
  exact ⟨{ id := id, userID := uid, status := "pending",
           subtotal := computeSubtotal r.items, shipping := 5,
           total := computeSubtotal r.items + 5, createdAt := env.now },
    by simp, rfl, rfl, rfl, rfl⟩

/-- Witness for C7: the demo creation replies 201 with the committed
order whether the cart clear fails or the cart client is absent. -/
theorem c7_witness :
    (handleCreateOrder envAllOk dbEmpty (.ok reqDemo) "u1" true
        (.error "cart failed")).reply = .created201 orderDemo ∧
    (handleCreateOrder envAllOk dbEmpty (.ok reqDemo) "u1" true
        (.error "cart failed")).db
      = (createOrderService envAllOk dbEmpty
          { userID := "u1", items := reqDemo.items }).db ∧
    (createOrderService envAllOk dbEmpty
      { userID := "u1", items := reqDemo.items }).committed = true ∧
    (∃ row ∈ (handleCreateOrder envAllOk dbEmpty (.ok reqDemo) "u1" true
        (.error "cart failed")).db.orders,
      row.id = orderDemo.id ∧ row.userID = orderDemo.userID ∧
      row.total = orderDemo.total ∧ row.status = "pending") ∧
    (handleCreateOrder envAllOk dbEmpty (.ok reqDemo) "u1" true
        (.error "cart failed")).reply
      = (handleCreateOrder envAllOk dbEmpty (.ok reqDemo) "u1" false
          (.ok ())).reply ∧
    (handleCreateOrder envAllOk dbEmpty (.ok reqDemo) "u1" true
        (.error "cart failed")).db
      = (handleCreateOrder envAllOk dbEmpty (.ok reqDemo) "u1" false
          (.ok ())).db :=
  c7_cart_clear_never_reverses envAllOk dbEmpty reqDemo "u1" true
    (.error "cart failed") false (.ok ()) orderDemo (by decide)
    createOrderService_demo

end OrderService
